import Mathlib

/-!
# Sentinel-PQC scanner: verification of the core static-analysis engine

A shallow embedding of `src/scanner.py` (class `PQCScanner`): the target
catalog and alias index built in `__init__`, the risk classifier
`_calculate_risk`, the key-size extractor `_extract_key_size`, the call-site
traversal `_find_calls`, the per-file driver `scan_file`, and the CBOM
export `generate_cbom`.

Modelling conventions:
* Tree-sitter syntax nodes become the inductive `TSNode`, carrying the node
  type, decoded source text, 0-indexed start row, the named fields
  (`child_by_field_name`), and the ordered child list.  Concrete trees used
  in theorems transcribe tree-sitter's actual parse shape for the quoted
  Python sources.
* Python `int(text)` (base 10) becomes `pythonInt`, a partial parse
  returning `Option Int`; `none` models the `ValueError` raised on
  non-decimal literal text such as "0x800".  Surrounding whitespace and
  non-ASCII digits never occur in tree-sitter integer-node text and are
  omitted.
* Code paths that can raise an uncaught exception return `Except Unit`;
  `Except.error ()` models the exception escaping.
* Python dicts over string keys become association lists with dict
  insertion/lookup semantics (`dictSet`, `dictGet`): assignment to an
  existing key replaces its value in place, new keys append.
* `os.path.normpath` is string normalisation of the caller-supplied path
  (pure I/O glue, out of the analytical core); it is modelled as the
  identity, and every concrete path used below is already normalised.
-/

/-- A tree-sitter syntax node: node type, decoded UTF-8 source text,
0-indexed start row (`start_point[0]`), named fields
(`child_by_field_name`), and ordered children (`node.children`). -/
inductive TSNode where
  | mk (ty : String) (text : String) (row : Nat)
       (fields : List (String × TSNode)) (children : List TSNode)

def TSNode.ty : TSNode → String
  | .mk t _ _ _ _ => t

def TSNode.text : TSNode → String
  | .mk _ t _ _ _ => t

def TSNode.row : TSNode → Nat
  | .mk _ _ r _ _ => r

def TSNode.fields : TSNode → List (String × TSNode)
  | .mk _ _ _ f _ => f

def TSNode.children : TSNode → List TSNode
  | .mk _ _ _ _ c => c

/-- `node.child_by_field_name(name)`: first field with the given name. -/
def TSNode.childByFieldName (n : TSNode) (f : String) : Option TSNode :=
  let rec go : List (String × TSNode) → Option TSNode
    | [] => none
    | (k, v) :: rest => if k = f then some v else go rest
  go n.fields

/-- Python dict lookup `m.get(k)` on an association list. -/
def dictGet {β : Type} : List (String × β) → String → Option β
  | [], _ => none
  | (k, v) :: rest, a => if k = a then some v else dictGet rest a

/-- Python dict assignment `m[k] = v`: replace in place if the key exists,
otherwise append (insertion order preserved). -/
def dictSet {β : Type} : List (String × β) → String → β → List (String × β)
  | [], k, v => [(k, v)]
  | (k0, v0) :: rest, k, v =>
      if k0 = k then (k0, v) :: rest else (k0, v0) :: dictSet rest k v

/-- One entry of `PQCScanner.TARGETS`: trigger methods, key-size argument
names, and import aliases. -/
structure TargetConfig where
  methods : List String
  arg_keys : List String
  aliases : List String
deriving Repr, DecidableEq

/-- The target configuration from `PQCScanner.__init__` (`self.TARGETS`),
in source order. -/
def TARGETS : List (String × TargetConfig) :=
  [ ("RSA", { methods := ["generate", "construct", "new_key"],
              arg_keys := ["bits", "size", "key_size"],
              aliases := ["RSA", "PyRSA", "rsa", "_RSA"] }),
    ("DSA", { methods := ["generate", "construct"],
              arg_keys := ["bits", "key_size"],
              aliases := ["DSA", "dsa"] }),
    ("AES", { methods := ["new", "encrypt", "decrypt"],
              arg_keys := ["key", "bits", "key_size"],
              aliases := ["AES", "Cipher", "aes"] }),
    ("EC",  { methods := ["generate", "generate_private_key", "new_key"],
              arg_keys := ["curve"],
              aliases := ["EC", "ECC", "ECDSA", "ECDH", "ec"] }),
    ("DES", { methods := ["new"],
              arg_keys := ["key"],
              aliases := ["DES", "DES3", "TripleDES"] }) ]

/-- The reverse alias index built at the end of `PQCScanner.__init__`:
`for canonical, config in TARGETS: for alias in config.aliases:
self._alias_map[alias] = canonical`.  Plain dict assignment: a repeated
alias silently overwrites the earlier binding. -/
def buildAliasMap (targets : List (String × TargetConfig)) :
    List (String × String) :=
  targets.foldl
    (fun m p => p.2.aliases.foldl (fun m2 al => dictSet m2 al p.1) m) []

/-- `self._alias_map` of the scanner as initialised from `TARGETS`. -/
def aliasMap : List (String × String) := buildAliasMap TARGETS

/-- `PQCScanner._resolve_alias`: `self._alias_map.get(name, name)`. -/
def resolveAlias (m : List (String × String)) (name : String) : String :=
  (dictGet m name).getD name

/-- Digit run of Python `int(text)` in base 10: decimal digits optionally
separated by single underscores; any other character (hex/octal/binary
prefixes, an imaginary suffix, a stray underscore) is a `ValueError`. -/
def pyDigits : Nat → List Char → Option Nat
  | acc, [] => some acc
  | acc, c :: rest =>
      if c.isDigit then pyDigits (10 * acc + (c.toNat - 48)) rest
      else if c = '_' then
        match rest with
        | d :: rest2 =>
            if d.isDigit then pyDigits (10 * acc + (d.toNat - 48)) rest2
            else none
        | [] => none
      else none

/-- Python `int(text)` in base 10 on tree-sitter integer-node text:
optional sign, then a decimal digit run.  `none` models the `ValueError`
raised on non-decimal literal forms such as "0x800", "0b101" or "2j". -/
def pythonInt (s : String) : Option Int :=
  match s.toList with
  | '+' :: d :: rest =>
      if d.isDigit then (pyDigits (d.toNat - 48) rest).map Int.ofNat else none
  | '-' :: d :: rest =>
      if d.isDigit then (pyDigits (d.toNat - 48) rest).map (fun n => -(n : Int))
      else none
  | d :: rest =>
      if d.isDigit then (pyDigits (d.toNat - 48) rest).map Int.ofNat else none
  | [] => none

/-- Python `str.upper()` on the ASCII names handled by the scanner
(maps a-z to A-Z, leaves everything else unchanged). -/
def pyUpper (s : String) : String :=
  ⟨s.data.map (fun c =>
      if 'a' ≤ c ∧ c ≤ 'z' then Char.ofNat (c.toNat - 32) else c)⟩

/-- Python string slicing `s[:n]` (first `n` code points). -/
def pySlice (s : String) (n : Nat) : String :=
  ⟨s.data.take n⟩

/-- Python `s.startswith("b")`. -/
def startsWithLowerB (s : String) : Bool :=
  match s.data with
  | [] => false
  | c :: _ => c = 'b'

/-- `PQCScanner._calculate_risk(algo, bits)`.  The argument is upper-cased
first; `if not bits or bits == 0` on an `int` is exactly `bits == 0`. -/
def calculateRisk (algo : String) (bits : Int) : String :=
  let a := pyUpper algo
  if bits = 0 then "UNKNOWN"
  else if a ∈ ["RSA", "DSA"] then
    if bits < 2048 then "CRITICAL"
    else if bits < 4096 then "HIGH"
    else "MEDIUM"
  else if a = "AES" then
    if bits = 128 then "MEDIUM"
    else if bits ∈ ([192, 256] : List Int) then "LOW"
    else "UNKNOWN"
  else if a ∈ ["EC", "ECC", "ECDSA", "ECDH"] then "HIGH"
  else if a ∈ ["DES", "3DES", "TRIPLEDES"] then "CRITICAL"
  else "HIGH"

/-- Loop body of `PQCScanner._extract_key_size` over
`args_node.children`.  Each acceptance point sets `key_size` and breaks,
so the loop returns at the first match; children that are neither
`integer` nor `keyword_argument` nodes (punctuation, identifiers,
positional string literals, ...) are skipped.  `int(...)` on
non-decimal literal text raises, modelled by `Except.error ()`. -/
def extractLoop (arg_keys : List String) : List TSNode → Except Unit Int
  | [] => .ok 0
  | c :: rest =>
      if c.ty = "integer" then
        match pythonInt c.text with
        | none => .error ()
        | some v =>
            if 128 ≤ v ∧ v ≠ 65537 then .ok v else extractLoop arg_keys rest
      else if c.ty = "keyword_argument" then
        match c.childByFieldName "name", c.childByFieldName "value" with
        | some nameN, some valN =>
            if nameN.text ∈ arg_keys then
              if valN.ty = "integer" then
                match pythonInt valN.text with
                | none => .error ()
                | some v => .ok v
              else if valN.ty = "string" ∨ valN.ty = "binary_string" then
                .ok ((Int.ofNat valN.text.length -
                       (if startsWithLowerB valN.text then 3 else 2)) * 8)
              else extractLoop arg_keys rest
            else extractLoop arg_keys rest
        | _, _ => extractLoop arg_keys rest
      else extractLoop arg_keys rest

/-- `PQCScanner._extract_key_size(args_node, arg_keys)`: 0 when the
argument node is absent, otherwise the first-match scan over its
children. -/
def extractKeySize (args? : Option TSNode) (arg_keys : List String) :
    Except Unit Int :=
  match args? with
  | none => .ok 0
  | some args => extractLoop arg_keys args.children

/-- The `bits` field of a finding: `key_size if key_size else "Unknown"` —
the extracted integer when non-zero, the string "Unknown" otherwise. -/
inductive BitsVal where
  | num (n : Int)
  | unknown
deriving Repr, DecidableEq

/-- `str(finding["bits"])` as used by the CBOM export. -/
def bitsStr : BitsVal → String
  | .num n => toString n
  | .unknown => "Unknown"

/-- One finding record built in `PQCScanner._find_calls` (the dictionary
appended to `results`), with the file path back-filled by `scan_file`. -/
structure Finding where
  file : String
  line : Nat
  algo : String
  method : String
  bits : BitsVal
  risk : String
  context : String
deriving Repr, DecidableEq

/-- The data `_find_calls` reads off one `call` node before filtering:
receiver text, method text, the `arguments` node, start row and call
text.  Ephemeral — discarded unless the catalog filters accept it. -/
structure CallSite where
  objName : String
  method : String
  args? : Option TSNode
  row : Nat
  text : String

/-- The call-shape test of `_find_calls` on a single node: a `call` node
whose `function` field is an `attribute` node carrying both an `object`
and an `attribute` field.  Returns the extracted `CallSite`, `none` when
the node is not call-shaped. -/
def matchCallSite (n : TSNode) : Option CallSite :=
  if n.ty = "call" then
    match n.childByFieldName "function" with
    | some func =>
        if func.ty = "attribute" then
          match func.childByFieldName "object",
                func.childByFieldName "attribute" with
          | some objN, some methN =>
              some { objName := objN.text, method := methN.text,
                     args? := n.childByFieldName "arguments",
                     row := n.row, text := n.text }
          | _, _ => none
        else none
    | none => none
  else none

mutual
/-- The pre-order traversal of `_find_calls`: the current node's call
site (if any) first, then the children left to right. -/
def findCallSites : TSNode → List CallSite
  | .mk ty text row fields children =>
      (matchCallSite (.mk ty text row fields children)).toList ++
      findCallSitesList children
termination_by structural n => n

def findCallSitesList : List TSNode → List CallSite
  | [] => []
  | c :: cs => findCallSites c ++ findCallSitesList cs
termination_by structural l => l
end

/-- The catalog filtering and finding construction of `_find_calls` for
one call site: resolve the receiver through the alias index, require a
catalog entry and a trigger method, extract the key size (which can
raise), classify, and build the record.  `.ok none` is a rejected site.
The source binds `canonical_name` once; the pure `resolveAlias` call is
inlined at each use here, the same value. -/
def assembleFinding (cs : CallSite) : Except Unit (Option Finding) :=
  match dictGet TARGETS (resolveAlias aliasMap cs.objName) with
  | none => .ok none
  | some cfg =>
      if cs.method ∈ cfg.methods then
        match extractKeySize cs.args? cfg.arg_keys with
        | .error e => .error e
        | .ok ks =>
            .ok (some { file := "",
                        line := cs.row + 1,
                        algo := resolveAlias aliasMap cs.objName,
                        method := cs.method,
                        bits := if ks = 0 then .unknown else .num ks,
                        risk := calculateRisk (resolveAlias aliasMap cs.objName) ks,
                        context := pySlice cs.text 100 })
      else .ok none

/-- Findings accumulated over the traversal's call sites in order; the
first extraction error aborts the whole scan, as the uncaught Python
exception would. -/
def assembleAll : List CallSite → Except Unit (List Finding)
  | [] => .ok []
  | cs :: rest =>
      match assembleFinding cs with
      | .error e => .error e
      | .ok f? =>
          match assembleAll rest with
          | .error e => .error e
          | .ok fs => .ok (f?.toList ++ fs)

/-- `PQCScanner.scan_file(filepath)`.  A read failure (`tree? = none`) is
caught and yields `[]`; otherwise the parse tree is traversed and the
file path is back-filled into every finding (`os.path.normpath` modelled
as the identity on the already-normalised paths used here). -/
def scanFile (filepath : String) (tree? : Option TSNode) :
    Except Unit (List Finding) :=
  match tree? with
  | none => .ok []
  | some root =>
      match assembleAll (findCallSites root) with
      | .error e => .error e
      | .ok fs => .ok (fs.map (fun f => { f with file := filepath }))

/-- One occurrence inside a CBOM crypto asset. -/
structure CbomOccurrence where
  location : String
  line : Nat
  context : String
deriving Repr, DecidableEq

/-- One entry of an asset's `properties` list. -/
structure CbomProperty where
  name : String
  value : String
deriving Repr, DecidableEq

/-- One record of the CBOM's `cryptoAssets` list. -/
structure CryptoAsset where
  type : String
  name : String
  occurrences : List CbomOccurrence
  properties : List CbomProperty
deriving Repr, DecidableEq

/-- The `metadata.tool` block of the CBOM. -/
structure CbomTool where
  vendor : String
  name : String
  version : String
deriving Repr, DecidableEq

/-- The CBOM document built by `generate_cbom`. -/
structure Cbom where
  bomFormat : String
  specVersion : String
  version : Nat
  tool : CbomTool
  cryptoAssets : List CryptoAsset
deriving Repr, DecidableEq

/-- The asset record `generate_cbom` appends for one finding: a single
occurrence and the three stringified properties. -/
def assetOfFinding (f : Finding) : CryptoAsset :=
  { type := "algorithm",
    name := f.algo,
    occurrences := [{ location := f.file, line := f.line,
                      context := f.context }],
    properties := [{ name := "keySize", value := bitsStr f.bits },
                   { name := "method", value := f.method },
                   { name := "quantumRisk", value := f.risk }] }

/-- `PQCScanner.generate_cbom(findings)`: the static header plus one
asset appended per finding, in order (the loop body runs once per
finding; there is no grouping step). -/
def generateCbom (findings : List Finding) : Cbom :=
  { bomFormat := "CycloneDX",
    specVersion := "1.6",
    version := 1,
    tool := { vendor := "Sentinel-PQC", name := "Cryptographic Scanner",
              version := "1.0.0" },
    cryptoAssets := findings.map assetOfFinding }

/-! ## Concrete syntax trees used in the theorems

Builders that transcribe tree-sitter's parse shape for the single-line
Python statements quoted in each theorem.  Anonymous tokens ("(", ")",
",", ".", "=") are nodes whose type is the token text itself; they carry
no fields.  String-literal nodes have internal children (`string_start`
etc.) that contain no call and are immaterial to every function above,
so they are left out of the transcription. -/

def identN (t : String) (r : Nat) : TSNode := .mk "identifier" t r [] []

def punct (t : String) (r : Nat) : TSNode := .mk t t r [] []

def intLit (t : String) (r : Nat) : TSNode := .mk "integer" t r [] []

def strLit (t : String) (r : Nat) : TSNode := .mk "string" t r [] []

/-- An `attribute` node `obj.meth` with its `object`/`attribute` fields. -/
def attrN (obj meth : String) (r : Nat) : TSNode :=
  .mk "attribute" (obj ++ "." ++ meth) r
    [("object", identN obj r), ("attribute", identN meth r)]
    [identN obj r, punct "." r, identN meth r]

/-- An `argument_list` node `(...)`: parenthesis tokens around the
argument nodes (comma tokens included by the caller where present). -/
def argListN (txt : String) (r : Nat) (args : List TSNode) : TSNode :=
  .mk "argument_list" txt r []
    ([punct "(" r] ++ args ++ [punct ")" r])

/-- A `call` node `obj.meth(...)` with its `function` and `arguments`
fields; the node text is receiver, dot, method and argument text. -/
def callN (obj meth argtxt : String) (r : Nat) (args : List TSNode) : TSNode :=
  .mk "call" (obj ++ "." ++ meth ++ argtxt) r
    [("function", attrN obj meth r), ("arguments", argListN argtxt r args)]
    [attrN obj meth r, argListN argtxt r args]

/-- An `assignment` node `lhs = rhs` inside its `expression_statement`. -/
def stmtN (lhs : String) (rhs : TSNode) (r : Nat) : TSNode :=
  .mk "expression_statement" (lhs ++ " = " ++ rhs.text) r []
    [.mk "assignment" (lhs ++ " = " ++ rhs.text) r
       [("left", identN lhs r), ("right", rhs)]
       [identN lhs r, punct "=" r, rhs]]

/-- A `module` root node over its statements. -/
def moduleN (stmts : List TSNode) : TSNode := .mk "module" "" 0 [] stmts

/-- A `keyword_argument` node `name=value` with its `name`/`value`
fields; the value node's type and text are supplied by the caller. -/
def kwNode (nm valTy valText : String) (r : Nat) : TSNode :=
  .mk "keyword_argument" (nm ++ "=" ++ valText) r
    [("name", identN nm r), ("value", .mk valTy valText r [] [])]
    [identN nm r, punct "=" r, .mk valTy valText r [] []]

/-- `TARGETS["RSA"]["arg_keys"]`. -/
def rsaArgKeys : List String := ["bits", "size", "key_size"]

/-- `TARGETS["AES"]["arg_keys"]`. -/
def aesArgKeys : List String := ["key", "bits", "key_size"]

/-- Modelled from the spec, for the refinement comparison of C6: the
risk-classification decision procedure exactly as §4.4 words it — the
same ordered checks, with each algorithm family spelled out as the
disjunction of its member names.  To be compared with `calculateRisk`,
the translation of `_calculate_risk`. -/
def riskSpecOrdered (algo : String) (bits : Int) : String :=
  if bits = 0 then "UNKNOWN"
  else if algo = "RSA" ∨ algo = "DSA" then
    if bits < 2048 then "CRITICAL"
    else if bits < 4096 then "HIGH"
    else "MEDIUM"
  else if algo = "AES" then
    if bits = 128 then "MEDIUM"
    else if bits = 192 ∨ bits = 256 then "LOW"
    else "UNKNOWN"
  else if algo = "EC" ∨ algo = "ECC" ∨ algo = "ECDSA" ∨ algo = "ECDH" then
    "HIGH"
  else if algo = "DES" ∨ algo = "3DES" ∨ algo = "TRIPLEDES" then "CRITICAL"
  else "HIGH"

/-- A malformed catalog for C3: the alias "XRSA" appears in the entries
of two different algorithms. -/
def dupCatalog : List (String × TargetConfig) :=
  [ ("RSA", { methods := ["generate"], arg_keys := ["bits"],
              aliases := ["RSA", "XRSA"] }),
    ("DSA", { methods := ["generate"], arg_keys := ["bits"],
              aliases := ["DSA", "XRSA"] }) ]

/-- Every field value one asset record carries, read back off the
record: the single occurrence's location, line and context, the asset
name, and the three property values (key size, method, risk).  `none`
when the record does not have exactly one occurrence and three
properties. -/
def assetFields (a : CryptoAsset) :
    Option (String × Nat × String × String × String × String × String) :=
  match a.occurrences, a.properties with
  | [o], [p1, p2, p3] =>
      some (o.location, o.line, o.context, a.name, p1.value, p2.value,
            p3.value)
  | _, _ => none

/-- Two findings over the same canonical algorithm, as a directory scan
over two files would produce them; input for the C2 counterexample. -/
def c2FindingA : Finding :=
  { file := "a.py", line := 1, algo := "RSA", method := "generate",
    bits := .num 1024, risk := "CRITICAL", context := "RSA.generate(1024)" }

def c2FindingB : Finding :=
  { file := "b.py", line := 9, algo := "RSA", method := "construct",
    bits := .num 4096, risk := "MEDIUM", context := "RSA.construct(4096)" }

/-- The 32-byte byte literal of the C1 scenario: 32 content bytes
between the `b'` and the closing quote (35 characters in all). -/
def aesKeyText32 : String := "b'32_byte_key_..................32'"

/-- The parse tree of the C1 end-to-end input file:
line 1 `weak = RSA.generate(1024)`,
line 2 `strong = AES.new(b'32_byte_key_..................32', MODE)`. -/
def c1Tree : TSNode :=
  moduleN
    [ stmtN "weak" (callN "RSA" "generate" "(1024)" 0 [intLit "1024" 0]) 0,
      stmtN "strong"
        (callN "AES" "new" ("(" ++ aesKeyText32 ++ ", MODE)") 1
          [strLit aesKeyText32 1, punct "," 1, identN "MODE" 1]) 1 ]

/-- What scanning the C1 input actually produces: the RSA finding as the
spec expects it, and an AES finding whose key size is the "Unknown"
sentinel with risk UNKNOWN. -/
def c1Expected : List Finding :=
  [ { file := "test.py", line := 1, algo := "RSA", method := "generate",
      bits := .num 1024, risk := "CRITICAL",
      context := "RSA.generate(1024)" },
    { file := "test.py", line := 2, algo := "AES", method := "new",
      bits := .unknown, risk := "UNKNOWN",
      context := "AES.new(" ++ aesKeyText32 ++ ", MODE)" } ]

/-- The parse tree of a one-line file `key = RSA.generate(0x800)`: the
key size is given as a hexadecimal integer literal. -/
def hexTree : TSNode :=
  moduleN [stmtN "key" (callN "RSA" "generate" "(0x800)" 0
    [intLit "0x800" 0]) 0]

/-- The parse tree of a one-line file `weak_dsa = DSA.generate(512)`,
used to instantiate the C9 invariant at a concrete finding. -/
def c9Tree : TSNode :=
  moduleN [stmtN "weak_dsa" (callN "DSA" "generate" "(512)" 0
    [intLit "512" 0]) 0]

/-- The key texts of the C8 string-length estimation cases: byte
literals of 16 and 32 content bytes (19 and 35 characters). -/
def keyText16 : String := "b'0123456789abcdef'"

def keyText32 : String := "b'0123456789abcdef0123456789abcdef'"

/-! ## Helper lemmas -/

theorem dictGet_dictSet {β : Type} (m : List (String × β)) (k a : String)
    (v : β) :
    dictGet (dictSet m k v) a = if k = a then some v else dictGet m a := by
  induction m with
  | nil => simp [dictSet, dictGet]
  | cons p rest ih =>
      obtain ⟨k0, v0⟩ := p
      by_cases h : k0 = k
      · subst h
        by_cases h2 : k0 = a <;> simp [dictSet, dictGet, h2]
      · by_cases h2 : k0 = a
        · subst h2
          have hk : ¬k = k0 := fun he => h he.symm
          simp [dictSet, dictGet, h, hk]
        · simp [dictSet, dictGet, h, h2, ih]

theorem dictGet_aliasFold (as : List String) (n : String)
    (m : List (String × String)) (a : String) :
    dictGet (as.foldl (fun m2 al => dictSet m2 al n) m) a =
      if a ∈ as then some n else dictGet m a := by
  induction as generalizing m with
  | nil => simp
  | cons x xs ih =>
      simp only [List.foldl_cons]
      rw [ih]
      by_cases hx : a ∈ xs
      · simp [hx]
      · by_cases hxa : x = a
        · subst hxa
          simp [hx, dictGet_dictSet]
        · have hnx : a ∉ x :: xs := by
            intro hmem
            rcases List.mem_cons.mp hmem with he | hm
            · exact hxa he.symm
            · exact hx hm
          rw [if_neg hx, dictGet_dictSet, if_neg hxa, if_neg hnx]

theorem calculateRisk_zero (algo : String) :
    calculateRisk algo 0 = "UNKNOWN" := by
  simp [calculateRisk]

/-- Any finding accepted by the filtering-and-assembly step has a
non-zero numeric `bits` or the "Unknown" sentinel, and the sentinel
forces risk UNKNOWN. -/
theorem assembleFinding_inv (cs : CallSite) (f : Finding)
    (h : assembleFinding cs = .ok (some f)) :
    f.bits ≠ BitsVal.num 0 ∧
      (f.bits = BitsVal.unknown → f.risk = "UNKNOWN") := by
  unfold assembleFinding at h
  split at h
  · exact absurd h (by simp)
  · split at h
    · split at h
      · exact absurd h (by simp)
      · rename_i cfg hmeth ks hks
        injection h with h
        injection h with h
        subst h
        constructor
        · by_cases hz : ks = 0 <;> simp [hz]
        · intro hu
          by_cases hz : ks = 0
          · simp [hz, calculateRisk_zero]
          · simp [hz] at hu
    · exact absurd h (by simp)

/-- The invariant of `assembleFinding_inv`, lifted over the whole
call-site list. -/
theorem assembleAll_inv (l : List CallSite) (fs : List Finding)
    (h : assembleAll l = .ok fs) (f : Finding) (hf : f ∈ fs) :
    f.bits ≠ BitsVal.num 0 ∧
      (f.bits = BitsVal.unknown → f.risk = "UNKNOWN") := by
  induction l generalizing fs with
  | nil =>
      simp [assembleAll] at h
      subst h
      exact absurd hf (by simp)
  | cons cs rest ih =>
      unfold assembleAll at h
      split at h
      · exact absurd h (by simp)
      · rename_i f? hcs
        split at h
        · exact absurd h (by simp)
        · rename_i fs0 hrest
          injection h with h
          subst h
          rcases List.mem_append.mp hf with hin | hin
          · cases f? with
            | none => simp [Option.toList] at hin
            | some g =>
                simp only [Option.toList, List.mem_singleton] at hin
                subst hin
                exact assembleFinding_inv cs f hcs
          · exact ih fs0 hrest hin

/-! ## Claim theorems -/

/-- C5, counterexample.  The claim asserts HIGH for the elliptic-curve
family and CRITICAL for the DES/3DES family *including a missing or zero
key size*; but `_calculate_risk` short-circuits a zero key size to
UNKNOWN before any family rule is consulted, so at key size 0 the
classifier returns UNKNOWN for both families. -/
theorem c5_counterexample :
    calculateRisk "EC" 0 ≠ "HIGH" ∧ calculateRisk "DES" 0 ≠ "CRITICAL" ∧
    calculateRisk "EC" 0 = "UNKNOWN" ∧ calculateRisk "DES" 0 = "UNKNOWN" :=
  ⟨by decide, by decide, rfl, rfl⟩

/-- C5, amended: for every *non-zero* key size the elliptic-curve family
(EC/ECC/ECDSA/ECDH) classifies HIGH regardless of the size, and the
DES/3DES family classifies CRITICAL at any non-zero size; a missing or
zero key size short-circuits to UNKNOWN for both. -/
theorem c5_family_tiers (algo : String) (bits : Int) (hb : bits ≠ 0) :
    (pyUpper algo ∈ ["EC", "ECC", "ECDSA", "ECDH"] →
       calculateRisk algo bits = "HIGH") ∧
    (pyUpper algo ∈ ["DES", "3DES", "TRIPLEDES"] →
       calculateRisk algo bits = "CRITICAL") ∧
    calculateRisk algo 0 = "UNKNOWN" := by
  refine ⟨?_, ?_, calculateRisk_zero algo⟩
  · intro h
    simp only [List.mem_cons, List.not_mem_nil, or_false] at h
    rcases h with h | h | h | h <;> simp [calculateRisk, hb, h]
  · intro h
    simp only [List.mem_cons, List.not_mem_nil, or_false] at h
    rcases h with h | h | h <;> simp [calculateRisk, hb, h]

/-- Witness for C5's amended theorem at algorithm "ec", key size 521. -/
theorem c5_witness : calculateRisk "ec" 521 = "HIGH" :=
  (c5_family_tiers "ec" 521 (by decide)).1 (by decide)

/-- C6: `_calculate_risk` implements exactly the ordered decision
procedure of the spec (§4.4) — zero/missing size short-circuits to
UNKNOWN; RSA/DSA tier by <2048/<4096 with MEDIUM as the cap (never
LOW); AES maps 128 to MEDIUM, 192/256 to LOW and any other non-zero
size to UNKNOWN; EC always HIGH; DES/3DES always CRITICAL; any other
name defaults to HIGH — applied to the upper-cased algorithm name. -/
theorem c6_risk_procedure (algo : String) (bits : Int) :
    calculateRisk algo bits = riskSpecOrdered (pyUpper algo) bits := by
  simp only [calculateRisk, riskSpecOrdered, List.mem_cons,
    List.mem_singleton, List.not_mem_nil, or_false]

/-- C7: in the positional scan of `_extract_key_size`, a bare positional
integer literal is accepted as the key size exactly when its value is at
least 128 and not 65537 — otherwise the scan moves on and, with nothing
else qualifying, reports 0 (surfaced as "Unknown"); in particular
`RSA.generate(65537)` alone yields 0, not 65537. -/
theorem c7_positional_integer_rule (t : String) (v : Int) (ks : List String)
    (h : pythonInt t = some v) :
    extractKeySize (some (argListN ("(" ++ t ++ ")") 0 [intLit t 0])) ks =
      .ok (if 128 ≤ v ∧ v ≠ 65537 then v else 0) ∧
    extractKeySize (some (argListN "(65537)" 0 [intLit "65537" 0])) ks =
      .ok 0 := by
  constructor
  · simp only [extractKeySize, argListN, intLit, punct, TSNode.children,
      List.cons_append, List.nil_append, extractLoop, TSNode.ty, TSNode.text, h]
    norm_num
    by_cases hc : 128 ≤ v ∧ v ≠ 65537 <;> simp [extractLoop, hc]
  · rfl

/-- Witness for C7 at the literal "1024" (accepted: 1024 ≥ 128 and
1024 ≠ 65537) with the RSA key-size argument names. -/
theorem c7_witness :
    extractKeySize (some (argListN "(1024)" 0 [intLit "1024" 0]))
        rsaArgKeys =
      .ok (if 128 ≤ (1024 : Int) ∧ (1024 : Int) ≠ 65537 then 1024 else 0) ∧
    extractKeySize (some (argListN "(65537)" 0 [intLit "65537" 0]))
        rsaArgKeys = .ok 0 :=
  c7_positional_integer_rule "1024" 1024 rsaArgKeys rfl

/-- C8: for a keyword argument whose name is among the entry's
recognized key-size argument names, an integer literal value is taken
directly (`RSA.generate(bits=2048, e=65537)` yields 2048), and a
string/byte literal value yields (text length − overhead) × 8 with
overhead 3 when the text starts with the byte prefix "b" and 2 for a
plain quoted literal — so byte keys of 16 and 32 content bytes yield 128
and 256. -/
theorem c8_keyword_rule (nm text : String) (v : Int) (ks : List String)
    (hmem : nm ∈ ks) :
    (pythonInt text = some v →
       extractKeySize
           (some (argListN ("(" ++ nm ++ "=" ++ text ++ ")") 0
             [kwNode nm "integer" text 0])) ks = .ok v) ∧
    (extractKeySize
         (some (argListN ("(" ++ nm ++ "=" ++ text ++ ")") 0
           [kwNode nm "string" text 0])) ks =
       .ok ((Int.ofNat text.length -
              (if startsWithLowerB text then 3 else 2)) * 8)) ∧
    extractKeySize
        (some (argListN "(bits=2048, e=65537)" 0
          [kwNode "bits" "integer" "2048" 0, punct "," 0,
           kwNode "e" "integer" "65537" 0])) rsaArgKeys = .ok 2048 ∧
    extractKeySize
        (some (argListN ("(key=" ++ keyText16 ++ ")") 0
          [kwNode "key" "string" keyText16 0])) aesArgKeys = .ok 128 ∧
    extractKeySize
        (some (argListN ("(key=" ++ keyText32 ++ ")") 0
          [kwNode "key" "string" keyText32 0])) aesArgKeys = .ok 256 := by
  refine ⟨?_, ?_, rfl, rfl, rfl⟩
  · intro h
    simp [extractKeySize, argListN, kwNode, identN, punct, extractLoop,
      TSNode.ty, TSNode.text, TSNode.children, TSNode.childByFieldName,
      TSNode.childByFieldName.go, TSNode.fields, hmem, h]
  · simp [extractKeySize, argListN, kwNode, identN, punct, extractLoop,
      TSNode.ty, TSNode.text, TSNode.children, TSNode.childByFieldName,
      TSNode.childByFieldName.go, TSNode.fields, hmem]

/-- Witness for C8 at `RSA.generate(bits=2048)`: "bits" is an RSA
key-size argument name and the integer literal is taken directly. -/
theorem c8_witness :
    extractKeySize
        (some (argListN "(bits=2048)" 0 [kwNode "bits" "integer" "2048" 0]))
        rsaArgKeys = .ok 2048 :=
  (c8_keyword_rule "bits" "2048" 2048 rsaArgKeys (by decide)).1 rfl

/-- C3, counterexample.  The claim asserts that `__init__` raises at
startup on a duplicated alias.  The alias-index build is plain dict
assignment with no duplicate check and no raise path — it is total —
and on `dupCatalog` (alias "XRSA" in both the RSA and the DSA entry)
initialization completes and the alias silently resolves to "DSA", the
entry processed later, exactly the silent resolution the claim rules
out. -/
theorem c3_counterexample :
    resolveAlias (buildAliasMap dupCatalog) "XRSA" = "DSA" ∧
    resolveAlias (buildAliasMap dupCatalog) "XRSA" ≠ "RSA" :=
  ⟨rfl, by decide⟩

/-- C3, amended: initialization never fails on a duplicated alias; the
index is built by successive dict insertion over the catalog in order,
so an alias carried by a later entry resolves to that later entry's
canonical name — deterministic last-write-wins, not an arbitrary
choice. -/
theorem c3_last_entry_wins (n1 n2 a : String) (e1 e2 : TargetConfig)
    (h : a ∈ e2.aliases) :
    resolveAlias (buildAliasMap [(n1, e1), (n2, e2)]) a = n2 := by
  unfold buildAliasMap resolveAlias
  simp only [List.foldl_cons, List.foldl_nil]
  rw [dictGet_aliasFold, if_pos h]
  rfl

/-- Witness for C3's amended theorem on `dupCatalog`: "XRSA" is an alias
of the second (DSA) entry, so it resolves to "DSA". -/
theorem c3_witness :
    resolveAlias (buildAliasMap dupCatalog) "XRSA" = "DSA" :=
  c3_last_entry_wins "RSA" "DSA" "XRSA" _ _ (by decide)

/-- C2, counterexample.  The claim requires findings sharing a canonical
algorithm to appear as a *single* cryptoAssets record carrying one
occurrence per finding.  `generate_cbom` appends one asset per finding
with no grouping: two RSA findings yield two records both named
"RSA". -/
theorem c2_counterexample :
    (generateCbom [c2FindingA, c2FindingB]).cryptoAssets.map
        CryptoAsset.name = ["RSA", "RSA"] ∧
    (generateCbom [c2FindingA, c2FindingB]).cryptoAssets.length ≠ 1 :=
  ⟨rfl, by decide⟩

/-- C2, amended: the asset-inventory export emits exactly one
cryptoAssets record per finding, in order, each carrying a single
occurrence; it is a lossless re-projection — every field of every
finding (location, line, context, algorithm, stringified key size,
method, risk) is read back off its asset record. -/
theorem c2_lossless_per_finding (fs : List Finding) :
    (generateCbom fs).cryptoAssets.length = fs.length ∧
    (generateCbom fs).cryptoAssets.map assetFields =
      fs.map (fun f =>
        some (f.file, f.line, f.context, f.algo, bitsStr f.bits, f.method,
              f.risk)) := by
  constructor
  · simp [generateCbom]
  · simp only [generateCbom, List.map_map]
    rfl

/-- C1, counterexample.  On the claim's two-statement input file the
scan never produces an AES finding with bits 256 and risk LOW: the
32-byte key literal is *positional*, and the positional scan of
`_extract_key_size` inspects only integer children, so the AES call's
key size stays 0. -/
theorem c1_counterexample :
    ¬ ∃ fs, scanFile "test.py" (some c1Tree) = Except.ok fs ∧
        ∃ f ∈ fs, f.algo = "AES" ∧ f.bits = BitsVal.num 256 ∧
          f.risk = "LOW" := by
  rintro ⟨fs, hfs, f, hmem, -, hbits, -⟩
  have h0 : scanFile "test.py" (some c1Tree) = Except.ok c1Expected := rfl
  rw [h0] at hfs
  injection hfs with hfs
  subst hfs
  simp only [c1Expected, List.mem_cons, List.not_mem_nil, or_false] at hmem
  rcases hmem with rfl | rfl <;> simp at hbits

/-- C1, amended: the scan of the file
`weak = RSA.generate(1024)` / `strong = AES.new(<32-byte literal>, MODE)`
yields exactly two findings in statement order — RSA, bits 1024, risk
CRITICAL at line 1 as the claim states; and AES, method `new`, at line 2,
but with the "Unknown" bits sentinel and risk UNKNOWN, because a
positional byte literal is never inspected by key-size extraction. -/
theorem c1_scan_result :
    scanFile "test.py" (some c1Tree) = Except.ok c1Expected := rfl

/-- C4: `scan_file` *can* raise.  On a one-line file
`key = RSA.generate(0x800)` the positional scan calls `int("0x800")`,
which raises `ValueError` with no surrounding handler, so the exception
escapes `scan_file` (and would abort a directory scan); only the file
*read* is guarded by try/except, which is the `none` case yielding the
empty finding list. -/
theorem c4_crash_on_hex_literal :
    scanFile "hex.py" (some hexTree) = Except.error () ∧
    scanFile "unreadable.py" none = Except.ok [] :=
  ⟨rfl, rfl⟩

/-- C9: every finding produced by `scan_file` has `bits` equal to a
non-zero integer or the "Unknown" sentinel — never the integer 0 — and
the sentinel forces risk "UNKNOWN" (a zero extracted size is replaced by
the sentinel in the record while the classifier maps the same zero to
UNKNOWN). -/
theorem c9_bits_risk_invariant (fp : String) (tree? : Option TSNode)
    (fs : List Finding) (h : scanFile fp tree? = .ok fs) (f : Finding)
    (hf : f ∈ fs) :
    f.bits ≠ BitsVal.num 0 ∧
      (f.bits = BitsVal.unknown → f.risk = "UNKNOWN") := by
  cases tree? with
  | none =>
      simp only [scanFile, Except.ok.injEq] at h
      subst h
      exact absurd hf (by simp)
  | some root =>
      simp only [scanFile] at h
      split at h
      · exact absurd h (by simp)
      · rename_i fs0 hall
        injection h with h
        subst h
        rcases List.mem_map.mp hf with ⟨g, hg, rfl⟩
        exact assembleAll_inv _ fs0 hall g hg

/-- Witness for C9 on the one-line file `weak_dsa = DSA.generate(512)`,
instantiated at its single finding. -/
theorem c9_witness :
    ({ file := "w.py", line := 1, algo := "DSA", method := "generate",
       bits := BitsVal.num 512, risk := "CRITICAL",
       context := "DSA.generate(512)" } : Finding).bits ≠ BitsVal.num 0 ∧
    (({ file := "w.py", line := 1, algo := "DSA", method := "generate",
        bits := BitsVal.num 512, risk := "CRITICAL",
        context := "DSA.generate(512)" } : Finding).bits = BitsVal.unknown →
      ({ file := "w.py", line := 1, algo := "DSA", method := "generate",
         bits := BitsVal.num 512, risk := "CRITICAL",
         context := "DSA.generate(512)" } : Finding).risk = "UNKNOWN") :=
  c9_bits_risk_invariant "w.py" (some c9Tree)
    [{ file := "w.py", line := 1, algo := "DSA", method := "generate",
       bits := BitsVal.num 512, risk := "CRITICAL",
       context := "DSA.generate(512)" }] rfl _ (by simp)

/-- Auxiliary induction for C10 over the argument children: when every
integer child parses in base 10 to a non-qualifying value and every
recognized keyword child has a non-literal value, the first-match scan
falls through every child and returns the initial 0. -/
theorem extractLoop_all_skipped (ks : List String) (children : List TSNode)
    (hint : ∀ c ∈ children, c.ty = "integer" →
       ∃ v, pythonInt c.text = some v ∧ ¬(128 ≤ v ∧ v ≠ 65537))
    (hkw : ∀ c ∈ children, c.ty = "keyword_argument" →
       ∀ nameN valN, c.childByFieldName "name" = some nameN →
         c.childByFieldName "value" = some valN → nameN.text ∈ ks →
         valN.ty ≠ "integer" ∧ valN.ty ≠ "string" ∧
           valN.ty ≠ "binary_string") :
    extractLoop ks children = .ok 0 := by
  induction children with
  | nil => rfl
  | cons c cs ih =>
      have ihx := ih (fun x hx => hint x (List.mem_cons_of_mem _ hx))
        (fun x hx => hkw x (List.mem_cons_of_mem _ hx))
      by_cases h1 : c.ty = "integer"
      · obtain ⟨v, hv, hnq⟩ := hint c (List.mem_cons_self _ _) h1
        simp [extractLoop, h1, hv, hnq, ihx]
      · by_cases h2 : c.ty = "keyword_argument"
        · rcases hname : c.childByFieldName "name" with _ | nameN
          · simp [extractLoop, h1, h2, hname, ihx]
          · rcases hval : c.childByFieldName "value" with _ | valN
            · simp [extractLoop, h1, h2, hname, hval, ihx]
            · by_cases h3 : nameN.text ∈ ks
              · obtain ⟨t1, t2, t3⟩ :=
                  hkw c (List.mem_cons_self _ _) h2 nameN valN hname hval h3
                simp [extractLoop, h1, h2, hname, hval, h3, t1, t2, t3, ihx]
              · simp [extractLoop, h1, h2, hname, hval, h3, ihx]
        · simp [extractLoop, h1, h2, ihx]

/-- C10, counterexample.  "0x30" denotes 48, which does not satisfy the
≥128-and-not-65537 rule, and the call has no keyword argument at all —
yet extraction does not return 0: `int("0x30")` raises, because the
positional branch converts *every* integer child before testing the
rule. -/
theorem c10_counterexample :
    extractKeySize (some (argListN "(0x30)" 0 [intLit "0x30" 0]))
        rsaArgKeys = .error () ∧
    extractKeySize (some (argListN "(0x30)" 0 [intLit "0x30" 0]))
        rsaArgKeys ≠ .ok 0 :=
  ⟨rfl, fun hc => Except.noConfusion hc⟩

/-- C10, amended: `_extract_key_size` inspects only argument children of
type `integer` and `keyword_argument` — positional string/byte literals
never contribute — so whenever every integer child parses in base 10 to
a value failing the ≥128-and-not-65537 rule and no recognized keyword
argument carries a literal value, extraction returns 0 (surfaced as
"Unknown"); the base-10 proviso is forced by the `int()` defect of C4. -/
theorem c10_positional_strings_never_contribute (ks : List String)
    (args : TSNode)
    (hint : ∀ c ∈ args.children, c.ty = "integer" →
       ∃ v, pythonInt c.text = some v ∧ ¬(128 ≤ v ∧ v ≠ 65537))
    (hkw : ∀ c ∈ args.children, c.ty = "keyword_argument" →
       ∀ nameN valN, c.childByFieldName "name" = some nameN →
         c.childByFieldName "value" = some valN → nameN.text ∈ ks →
         valN.ty ≠ "integer" ∧ valN.ty ≠ "string" ∧
           valN.ty ≠ "binary_string") :
    extractKeySize (some args) ks = .ok 0 :=
  extractLoop_all_skipped ks args.children hint hkw

/-- Witness for C10 on `AES.new(b'0123456789abcdef', MODE)`: a 16-byte
key passed as a *positional* byte literal plus an identifier; extraction
returns 0. -/
theorem c10_witness :
    extractKeySize
        (some (argListN ("(" ++ keyText16 ++ ", MODE)") 0
          [strLit keyText16 0, punct "," 0, identN "MODE" 0]))
        aesArgKeys = .ok 0 :=
  c10_positional_strings_never_contribute aesArgKeys _
    (by
      intro c hc hty
      simp only [argListN, TSNode.children, List.cons_append,
        List.nil_append, List.mem_cons, List.not_mem_nil, or_false] at hc
      rcases hc with rfl | rfl | rfl | rfl | rfl <;>
        simp [punct, strLit, identN, TSNode.ty] at hty)
    (by
      intro c hc hty
      simp only [argListN, TSNode.children, List.cons_append,
        List.nil_append, List.mem_cons, List.not_mem_nil, or_false] at hc
      rcases hc with rfl | rfl | rfl | rfl | rfl <;>
        simp [punct, strLit, identN, TSNode.ty] at hty)
